import Mathlib

/-! Formalisation of the NFDRS (National Fire Danger Rating System) calculation
engine of `agent/data_science/fire_calculations/nfdrs_engine.py`.

Machine floating-point numbers are modelled as real numbers (`ℝ`).  The one
fallible operation in the engine is `math.pow(wind_speed, 1.5)` inside
`calculate_spread_component`: for a finite negative base and a non-integral
exponent, the Python `math.pow` raises `ValueError` ("math domain error").  That
partiality is modelled with `Option`: `calculate_spread_component` returns
`none` exactly when `wind_speed < 0`, and `calculate_fire_danger` propagates
the failure.  Every other arithmetic step of the engine is total over the
reals.  Floating-point overflow to infinity is outside the real-number model
and is not represented. -/

namespace NFDRS

/-- Weather station data for fire calculations (the `WeatherData` dataclass).
The `solar_radiation` field is optional in the source (default `None`). -/
structure WeatherData where
  temperature : ℝ
  relative_humidity : ℝ
  wind_speed : ℝ
  precipitation : ℝ
  solar_radiation : Option ℝ

/-- Complete fire danger calculation results (the `FireDangerResult`
dataclass). -/
structure FireDangerResult where
  dead_fuel_moisture : ℝ
  live_fuel_moisture : ℝ
  spread_component : ℝ
  energy_release_component : ℝ
  burning_index : ℝ
  fire_danger_class : String

/-- Equilibrium Moisture Content: the three-branch piecewise ladder inside
`calculate_dead_fuel_moisture` (source lines 44-49). -/
noncomputable def emc (rh : ℝ) : ℝ :=
  if rh < 10 then 0.03 * rh
  else if rh < 50 then 2.22 * (rh / 100) - 0.16
  else 21.06 * (rh / 100) - 7.39

/-- Source method `calculate_dead_fuel_moisture`: EMC from relative humidity,
temperature correction factor, optional precipitation wetting adjustment,
then clamp to `[1, 35]` via `max(1, min(dead_fm, 35))`. -/
noncomputable def calculate_dead_fuel_moisture (weather : WeatherData) : ℝ :=
  let e := emc weather.relative_humidity
  let temp_factor := 1 + 0.0154 * (weather.temperature - 70)
  let dead_fm := e * temp_factor
  let dead_fm :=
    if weather.precipitation > 0.1 then dead_fm + weather.precipitation * 2 else dead_fm
  max 1 (min dead_fm 35)

/-- The value computed by `calculate_spread_component` on its non-raising path:
`0.560 * (wind_speed^1.5 / 5.0) * exp(-0.108 * dead_fm)` clamped to
`[0, 99]` via `max(0, min(spread_component, 99))`. -/
noncomputable def spread_component_value (wind_speed dead_fm : ℝ) : ℝ :=
  let wind_factor := wind_speed ^ (1.5 : ℝ) / 5.0
  let fm_factor := Real.exp (-0.108 * dead_fm)
  let spread_rate := wind_factor * fm_factor
  max 0 (min (0.560 * spread_rate) 99)

/-- Source method `calculate_spread_component`.  `math.pow(wind_speed, 1.5)`
raises `ValueError` when `wind_speed < 0` (negative base, non-integral
exponent), modelled as `none`; otherwise the clamped value is returned. -/
noncomputable def calculate_spread_component (wind_speed dead_fm : ℝ) : Option ℝ :=
  if wind_speed < 0 then none
  else some (spread_component_value wind_speed dead_fm)

/-- Source method `calculate_energy_release_component`: fixed 70/30 dead/live
weighting, then clamp to `[0, 97]`. -/
noncomputable def calculate_energy_release_component (dead_fm live_fm : ℝ) : ℝ :=
  let dead_weight := 0.7
  let live_weight := 0.3
  let dead_factor := dead_weight * (1 - dead_fm / 100)
  let live_factor := live_weight * (1 - live_fm / 100)
  let erc := (dead_factor + live_factor) * 100
  max 0 (min erc 97)

/-- Source method `calculate_burning_index`:
`10 * spread_component * erc / 100` clamped to `[0, 999]`. -/
noncomputable def calculate_burning_index (spread_component erc : ℝ) : ℝ :=
  max 0 (min (10 * spread_component * erc / 100) 999)

/-- Source method `determine_fire_danger_class`: strict less-than ladder over
the burning index. -/
noncomputable def determine_fire_danger_class (burning_index : ℝ) : String :=
  if burning_index < 25 then "LOW"
  else if burning_index < 50 then "MODERATE"
  else if burning_index < 75 then "HIGH"
  else if burning_index < 90 then "VERY HIGH"
  else "EXTREME"

/-- The result record assembled by `calculate_fire_danger` on its non-raising
path (`wind_speed ≥ 0`). -/
noncomputable def fire_danger_result (weather : WeatherData) (live_fm : ℝ) : FireDangerResult :=
  let dead_fm := calculate_dead_fuel_moisture weather
  let spread_comp := spread_component_value weather.wind_speed dead_fm
  let erc := calculate_energy_release_component dead_fm live_fm
  let burning_idx := calculate_burning_index spread_comp erc
  { dead_fuel_moisture := dead_fm
    live_fuel_moisture := live_fm
    spread_component := spread_comp
    energy_release_component := erc
    burning_index := burning_idx
    fire_danger_class := determine_fire_danger_class burning_idx }

/-- Source method `calculate_fire_danger(weather, live_fm=120)`: the four
sub-calculations in strict sequence followed by classification; in the source
`live_fm` defaults to `120`.  A `ValueError` escaping from
`calculate_spread_component` aborts the whole call, hence the `Option.map`. -/
noncomputable def calculate_fire_danger (weather : WeatherData) (live_fm : ℝ) :
    Option FireDangerResult :=
  let dead_fm := calculate_dead_fuel_moisture weather
  (calculate_spread_component weather.wind_speed dead_fm).map fun spread_comp =>
    let erc := calculate_energy_release_component dead_fm live_fm
    let burning_idx := calculate_burning_index spread_comp erc
    { dead_fuel_moisture := dead_fm
      live_fuel_moisture := live_fm
      spread_component := spread_comp
      energy_release_component := erc
      burning_index := burning_idx
      fire_danger_class := determine_fire_danger_class burning_idx }

lemma calculate_fire_danger_eq_none (weather : WeatherData) (lfm : ℝ)
    (h : weather.wind_speed < 0) : calculate_fire_danger weather lfm = none := by
  simp only [calculate_fire_danger, calculate_spread_component]
  rw [if_pos h]
  rfl

lemma calculate_fire_danger_eq_some (weather : WeatherData) (lfm : ℝ)
    (h : 0 ≤ weather.wind_speed) :
    calculate_fire_danger weather lfm = some (fire_danger_result weather lfm) := by
  simp only [calculate_fire_danger, calculate_spread_component, fire_danger_result]
  rw [if_neg (not_lt.mpr h)]
  rfl

lemma calculate_fire_danger_some_inv {weather : WeatherData} {lfm : ℝ} {r : FireDangerResult}
    (h : calculate_fire_danger weather lfm = some r) :
    0 ≤ weather.wind_speed ∧ r = fire_danger_result weather lfm := by
  by_cases hw : weather.wind_speed < 0
  · rw [calculate_fire_danger_eq_none weather lfm hw] at h
    exact absurd h (by simp)
  · have h0 : 0 ≤ weather.wind_speed := not_lt.mp hw
    rw [calculate_fire_danger_eq_some weather lfm h0] at h
    exact ⟨h0, (Option.some_injective _ h).symm⟩

lemma dead_fuel_moisture_mem (weather : WeatherData) :
    1 ≤ calculate_dead_fuel_moisture weather ∧ calculate_dead_fuel_moisture weather ≤ 35 := by
  unfold calculate_dead_fuel_moisture
  exact ⟨le_max_left 1 _, max_le (by norm_num) (min_le_right _ 35)⟩

lemma spread_component_value_mem (ws d : ℝ) :
    0 ≤ spread_component_value ws d ∧ spread_component_value ws d ≤ 99 := by
  unfold spread_component_value
  exact ⟨le_max_left 0 _, max_le (by norm_num) (min_le_right _ 99)⟩

lemma energy_release_component_mem (d l : ℝ) :
    0 ≤ calculate_energy_release_component d l ∧ calculate_energy_release_component d l ≤ 97 := by
  unfold calculate_energy_release_component
  exact ⟨le_max_left 0 _, max_le (by norm_num) (min_le_right _ 97)⟩

lemma burning_index_mem (sc e : ℝ) :
    0 ≤ calculate_burning_index sc e ∧ calculate_burning_index sc e ≤ 999 := by
  unfold calculate_burning_index
  exact ⟨le_max_left 0 _, max_le (by norm_num) (min_le_right _ 999)⟩

lemma fire_danger_class_cases (bi : ℝ) :
    determine_fire_danger_class bi = "LOW" ∨ determine_fire_danger_class bi = "MODERATE" ∨
    determine_fire_danger_class bi = "HIGH" ∨ determine_fire_danger_class bi = "VERY HIGH" ∨
    determine_fire_danger_class bi = "EXTREME" := by
  unfold determine_fire_danger_class
  split_ifs <;> simp

lemma clamp_mono {lo hi x y : ℝ} (h : x ≤ y) : max lo (min x hi) ≤ max lo (min y hi) :=
  max_le_max le_rfl (min_le_min h le_rfl)

lemma fdr_dead (w : WeatherData) (lfm : ℝ) :
    (fire_danger_result w lfm).dead_fuel_moisture = calculate_dead_fuel_moisture w := rfl

lemma fdr_live (w : WeatherData) (lfm : ℝ) :
    (fire_danger_result w lfm).live_fuel_moisture = lfm := rfl

lemma fdr_spread (w : WeatherData) (lfm : ℝ) :
    (fire_danger_result w lfm).spread_component =
      spread_component_value w.wind_speed (calculate_dead_fuel_moisture w) := rfl

lemma fdr_erc (w : WeatherData) (lfm : ℝ) :
    (fire_danger_result w lfm).energy_release_component =
      calculate_energy_release_component (calculate_dead_fuel_moisture w) lfm := rfl

lemma fdr_bi (w : WeatherData) (lfm : ℝ) :
    (fire_danger_result w lfm).burning_index =
      calculate_burning_index (spread_component_value w.wind_speed (calculate_dead_fuel_moisture w))
        (calculate_energy_release_component (calculate_dead_fuel_moisture w) lfm) := rfl

lemma fdr_class (w : WeatherData) (lfm : ℝ) :
    (fire_danger_result w lfm).fire_danger_class =
      determine_fire_danger_class ((fire_danger_result w lfm).burning_index) := rfl

/-- C1 (amended): on every input with nonnegative wind speed,
`calculate_fire_danger` returns a `FireDangerResult`.  The original claim of
totality over all real inputs is refuted by the counterexample below: for
negative wind speed, `math.pow(wind_speed, 1.5)` raises `ValueError`. -/
theorem C1_total_on_nonneg_wind (weather : WeatherData) (lfm : ℝ)
    (h : 0 ≤ weather.wind_speed) : (calculate_fire_danger weather lfm).isSome := by
  rw [calculate_fire_danger_eq_some weather lfm h]
  rfl

theorem C1_total_on_nonneg_wind_witness :
    (calculate_fire_danger ⟨70, 50, 5, 0, none⟩ 120).isSome :=
  C1_total_on_nonneg_wind ⟨70, 50, 5, 0, none⟩ 120 (by show (0:ℝ) ≤ 5; norm_num)

/-- C1 counterexample: at wind speed `-1` (all other fields ordinary) the
engine produces no result — `math.pow(-1.0, 1.5)` raises
`ValueError: math domain error`, so `calculate_fire_danger` does not return a
`FireDangerResult`. -/
theorem C1_counterexample :
    calculate_fire_danger ⟨70, 50, -1, 0, none⟩ 120 = none :=
  calculate_fire_danger_eq_none ⟨70, 50, -1, 0, none⟩ 120 (by show (-1:ℝ) < 0; norm_num)

/-- C2: every result actually returned by `calculate_fire_danger` satisfies
the clamp-range invariants: `dead_fuel_moisture ∈ [1, 35]`,
`spread_component ∈ [0, 99]`, `energy_release_component ∈ [0, 97]`,
`burning_index ∈ [0, 999]`, and the class is one of the five categories. -/
theorem C2_range_invariants (weather : WeatherData) (lfm : ℝ) (r : FireDangerResult)
    (h : calculate_fire_danger weather lfm = some r) :
    1 ≤ r.dead_fuel_moisture ∧ r.dead_fuel_moisture ≤ 35 ∧
    0 ≤ r.spread_component ∧ r.spread_component ≤ 99 ∧
    0 ≤ r.energy_release_component ∧ r.energy_release_component ≤ 97 ∧
    0 ≤ r.burning_index ∧ r.burning_index ≤ 999 ∧
    (r.fire_danger_class = "LOW" ∨ r.fire_danger_class = "MODERATE" ∨
     r.fire_danger_class = "HIGH" ∨ r.fire_danger_class = "VERY HIGH" ∨
     r.fire_danger_class = "EXTREME") := by
  obtain ⟨-, rfl⟩ := calculate_fire_danger_some_inv h
  rw [fdr_dead, fdr_spread, fdr_erc, fdr_bi, fdr_class]
  refine ⟨(dead_fuel_moisture_mem weather).1, (dead_fuel_moisture_mem weather).2,
    (spread_component_value_mem _ _).1, (spread_component_value_mem _ _).2,
    (energy_release_component_mem _ _).1, (energy_release_component_mem _ _).2,
    (burning_index_mem _ _).1, (burning_index_mem _ _).2, fire_danger_class_cases _⟩

theorem C2_range_invariants_witness :
    1 ≤ (fire_danger_result ⟨70, 50, 5, 0, none⟩ 120).dead_fuel_moisture :=
  (C2_range_invariants ⟨70, 50, 5, 0, none⟩ 120 (fire_danger_result ⟨70, 50, 5, 0, none⟩ 120)
    (calculate_fire_danger_eq_some _ 120 (by show (0:ℝ) ≤ 5; norm_num))).1

/-- C3: `determine_fire_danger_class` partitions the real line with strict
less-than comparisons, so boundary values belong to the higher class:
`"LOW"` exactly below 25, `"MODERATE"` on `[25, 50)`, `"HIGH"` on `[50, 75)`,
`"VERY HIGH"` on `[75, 90)`, `"EXTREME"` on `[90, ∞)`; in particular
`25 ↦ "MODERATE"`, `50 ↦ "HIGH"`, `75 ↦ "VERY HIGH"`, `90 ↦ "EXTREME"`, and
every real burning index gets exactly one class. -/
theorem C3_classification_partition (bi : ℝ) :
    (determine_fire_danger_class bi = "LOW" ↔ bi < 25) ∧
    (determine_fire_danger_class bi = "MODERATE" ↔ 25 ≤ bi ∧ bi < 50) ∧
    (determine_fire_danger_class bi = "HIGH" ↔ 50 ≤ bi ∧ bi < 75) ∧
    (determine_fire_danger_class bi = "VERY HIGH" ↔ 75 ≤ bi ∧ bi < 90) ∧
    (determine_fire_danger_class bi = "EXTREME" ↔ 90 ≤ bi) ∧
    determine_fire_danger_class 25 = "MODERATE" ∧
    determine_fire_danger_class 50 = "HIGH" ∧
    determine_fire_danger_class 75 = "VERY HIGH" ∧
    determine_fire_danger_class 90 = "EXTREME" := by
  have key : ∀ b : ℝ,
      (determine_fire_danger_class b = "LOW" ↔ b < 25) ∧
      (determine_fire_danger_class b = "MODERATE" ↔ 25 ≤ b ∧ b < 50) ∧
      (determine_fire_danger_class b = "HIGH" ↔ 50 ≤ b ∧ b < 75) ∧
      (determine_fire_danger_class b = "VERY HIGH" ↔ 75 ≤ b ∧ b < 90) ∧
      (determine_fire_danger_class b = "EXTREME" ↔ 90 ≤ b) := by
    intro b
    unfold determine_fire_danger_class
    split_ifs with h1 h2 h3 h4 <;>
      refine ⟨?_, ?_, ?_, ?_, ?_⟩ <;> constructor <;> intro hx <;>
      first
        | rfl
        | exact absurd hx (by decide)
        | (exfalso; rcases hx with ⟨ha, hb⟩; linarith)
        | (exfalso; linarith)
        | (exact ⟨by linarith, by linarith⟩)
        | linarith
  obtain ⟨k1, k2, k3, k4, k5⟩ := key bi
  exact ⟨k1, k2, k3, k4, k5,
    (key 25).2.1.mpr ⟨le_refl _, by norm_num⟩,
    (key 50).2.2.1.mpr ⟨le_refl _, by norm_num⟩,
    (key 75).2.2.2.1.mpr ⟨le_refl _, by norm_num⟩,
    (key 90).2.2.2.2.mpr (le_refl _)⟩

/-- C4: `calculate_fire_danger` is the strict-sequence composition of the four
sub-calculations followed by classification, and the `live_fuel_moisture`
field of the result is exactly the caller-supplied argument, unmodified. -/
theorem C4_strict_sequence_composition (weather : WeatherData) (lfm : ℝ) (r : FireDangerResult)
    (h : calculate_fire_danger weather lfm = some r) :
    r.dead_fuel_moisture = calculate_dead_fuel_moisture weather ∧
    calculate_spread_component weather.wind_speed (calculate_dead_fuel_moisture weather) =
      some r.spread_component ∧
    r.energy_release_component =
      calculate_energy_release_component (calculate_dead_fuel_moisture weather) lfm ∧
    r.burning_index = calculate_burning_index r.spread_component r.energy_release_component ∧
    r.fire_danger_class = determine_fire_danger_class r.burning_index ∧
    r.live_fuel_moisture = lfm := by
  obtain ⟨h0, rfl⟩ := calculate_fire_danger_some_inv h
  refine ⟨rfl, ?_, rfl, rfl, rfl, rfl⟩
  unfold calculate_spread_component
  rw [if_neg (not_lt.mpr h0), fdr_spread]

theorem C4_strict_sequence_composition_witness :
    (fire_danger_result ⟨70, 50, 5, 0, none⟩ 120).live_fuel_moisture = 120 :=
  (C4_strict_sequence_composition ⟨70, 50, 5, 0, none⟩ 120 _
    (calculate_fire_danger_eq_some _ 120 (by show (0:ℝ) ≤ 5; norm_num))).2.2.2.2.2

/-- C5: at relative humidity exactly 10 the EMC ladder inside
`calculate_dead_fuel_moisture` takes the second branch (`rh < 50`), because
the first comparison `rh < 10` is strict: the EMC is
`2.22 * (10/100) - 0.16 = 0.062` and not `0.03 * 10 = 0.3`. -/
theorem C5_emc_boundary_rh10 :
    emc 10 = 2.22 * (10 / 100) - 0.16 ∧ emc 10 = 0.062 ∧ emc 10 ≠ 0.03 * 10 := by
  unfold emc
  rw [if_neg (lt_irrefl (10:ℝ)), if_pos (by norm_num : (10:ℝ) < 50)]
  norm_num

/-- C6: with all other fields fixed, precipitation `0.5` (above the 0.1-inch
wetting threshold, adding `precipitation * 2`) yields a dead fuel moisture at
least as large as precipitation `0.05` (below the threshold, no
adjustment). -/
theorem C6_precipitation_wetting (t rh ws : ℝ) (sr : Option ℝ) :
    calculate_dead_fuel_moisture ⟨t, rh, ws, 0.05, sr⟩ ≤
      calculate_dead_fuel_moisture ⟨t, rh, ws, 0.5, sr⟩ := by
  unfold calculate_dead_fuel_moisture
  dsimp only
  rw [if_neg (by norm_num : ¬ (0.05:ℝ) > 0.1), if_pos (by norm_num : (0.5:ℝ) > 0.1)]
  exact clamp_mono (by linarith)

/-- C9: the `solar_radiation` field has no influence on the engine: two
observations equal in temperature, relative humidity, wind speed and
precipitation give identical `calculate_fire_danger` results for the same
live fuel moisture. -/
theorem C9_solar_radiation_irrelevant (w1 w2 : WeatherData) (lfm : ℝ)
    (ht : w1.temperature = w2.temperature)
    (hh : w1.relative_humidity = w2.relative_humidity)
    (hw : w1.wind_speed = w2.wind_speed)
    (hp : w1.precipitation = w2.precipitation) :
    calculate_fire_danger w1 lfm = calculate_fire_danger w2 lfm := by
  obtain ⟨t1, rh1, ws1, p1, s1⟩ := w1
  obtain ⟨t2, rh2, ws2, p2, s2⟩ := w2
  dsimp only at ht hh hw hp
  subst ht hh hw hp
  rfl

theorem C9_solar_radiation_irrelevant_witness :
    calculate_fire_danger ⟨70, 50, 5, 0, some 100⟩ 120 =
      calculate_fire_danger ⟨70, 50, 5, 0, none⟩ 120 :=
  C9_solar_radiation_irrelevant _ _ 120 rfl rfl rfl rfl

/-- C10: every burning index actually returned is at most
`10 * 99 * 97 / 100 = 960.3`, because the spread component is clamped to at
most 99 and the energy release component to at most 97 before the
burning-index formula; the upper clamp of 999 is never the binding
constraint. -/
theorem C10_burning_index_le (weather : WeatherData) (lfm : ℝ) (r : FireDangerResult)
    (h : calculate_fire_danger weather lfm = some r) :
    r.burning_index ≤ 960.3 := by
  obtain ⟨-, rfl⟩ := calculate_fire_danger_some_inv h
  rw [fdr_bi]
  have hsc := spread_component_value_mem weather.wind_speed (calculate_dead_fuel_moisture weather)
  have he := energy_release_component_mem (calculate_dead_fuel_moisture weather) lfm
  unfold calculate_burning_index
  refine max_le (by norm_num) (le_trans (min_le_left _ _) ?_)
  have hprod : spread_component_value weather.wind_speed (calculate_dead_fuel_moisture weather) *
      calculate_energy_release_component (calculate_dead_fuel_moisture weather) lfm ≤ 99 * 97 :=
    mul_le_mul hsc.2 he.2 he.1 (by norm_num)
  linarith

lemma erc_eq_of_bounds (d l : ℝ)
    (h0 : 0 ≤ (0.7 * (1 - d / 100) + 0.3 * (1 - l / 100)) * 100)
    (h97 : (0.7 * (1 - d / 100) + 0.3 * (1 - l / 100)) * 100 ≤ 97) :
    calculate_energy_release_component d l =
      (0.7 * (1 - d / 100) + 0.3 * (1 - l / 100)) * 100 := by
  simp only [calculate_energy_release_component]
  rw [min_eq_left h97, max_eq_right h0]

/-- C7: whenever the engine returns for both calls, live fuel moisture 30
produces a strictly higher energy release component than the default 120 on
identical weather, and a burning index at least as high. -/
theorem C7_low_live_moisture (weather : WeatherData) (r30 r120 : FireDangerResult)
    (h30 : calculate_fire_danger weather 30 = some r30)
    (h120 : calculate_fire_danger weather 120 = some r120) :
    r120.energy_release_component < r30.energy_release_component ∧
    r120.burning_index ≤ r30.burning_index := by
  obtain ⟨-, rfl⟩ := calculate_fire_danger_some_inv h30
  obtain ⟨-, rfl⟩ := calculate_fire_danger_some_inv h120
  rw [fdr_erc, fdr_erc, fdr_bi, fdr_bi]
  have hdm := dead_fuel_moisture_mem weather
  have hsc := spread_component_value_mem weather.wind_speed (calculate_dead_fuel_moisture weather)
  have e30 := erc_eq_of_bounds (calculate_dead_fuel_moisture weather) 30
    (by nlinarith [hdm.1, hdm.2]) (by nlinarith [hdm.1, hdm.2])
  have e120 := erc_eq_of_bounds (calculate_dead_fuel_moisture weather) 120
    (by nlinarith [hdm.1, hdm.2]) (by nlinarith [hdm.1, hdm.2])
  have hlt : calculate_energy_release_component (calculate_dead_fuel_moisture weather) 120 <
      calculate_energy_release_component (calculate_dead_fuel_moisture weather) 30 := by
    rw [e30, e120]
    linarith
  refine ⟨hlt, ?_⟩
  have hmul : spread_component_value weather.wind_speed (calculate_dead_fuel_moisture weather) *
      calculate_energy_release_component (calculate_dead_fuel_moisture weather) 120 ≤
      spread_component_value weather.wind_speed (calculate_dead_fuel_moisture weather) *
      calculate_energy_release_component (calculate_dead_fuel_moisture weather) 30 :=
    mul_le_mul_of_nonneg_left hlt.le hsc.1
  unfold calculate_burning_index
  exact clamp_mono (by linarith)

theorem C7_low_live_moisture_witness :
    (fire_danger_result ⟨70, 50, 5, 0, none⟩ 120).energy_release_component <
      (fire_danger_result ⟨70, 50, 5, 0, none⟩ 30).energy_release_component :=
  (C7_low_live_moisture ⟨70, 50, 5, 0, none⟩ _ _
    (calculate_fire_danger_eq_some _ 30 (by show (0:ℝ) ≤ 5; norm_num))
    (calculate_fire_danger_eq_some _ 120 (by show (0:ℝ) ≤ 5; norm_num))).1

lemma rpow_three_halves (x : ℝ) (hx : 0 < x) : x ^ (1.5:ℝ) = x * Real.sqrt x := by
  have h : (1.5:ℝ) = 1 + 1 / 2 := by norm_num
  rw [h, Real.rpow_add hx, Real.rpow_one, ← Real.sqrt_eq_rpow]

lemma c8_dfm : calculate_dead_fuel_moisture ⟨95, 15, 30, 0, none⟩ = 1 := by
  unfold calculate_dead_fuel_moisture emc
  dsimp only
  rw [if_neg (by norm_num : ¬ (15:ℝ) < 10), if_pos (by norm_num : (15:ℝ) < 50),
    if_neg (by norm_num : ¬ (0:ℝ) > 0.1)]
  rw [min_eq_left (by norm_num), max_eq_left (by norm_num)]

lemma c8_erc : calculate_energy_release_component 1 120 = 63.3 := by
  rw [erc_eq_of_bounds 1 120 (by norm_num) (by norm_num)]
  norm_num

lemma c8_sc_bounds : 16.39 < spread_component_value 30 1 ∧ spread_component_value 30 1 < 18.42 := by
  have hs1 : (5.47:ℝ) < Real.sqrt 30 := (Real.lt_sqrt (by norm_num)).mpr (by norm_num)
  have hs2 : Real.sqrt 30 < 5.48 := (Real.sqrt_lt' (by norm_num)).mpr (by norm_num)
  have he1 : (0.892:ℝ) ≤ Real.exp (-0.108) := by
    have h := Real.add_one_le_exp (-0.108)
    linarith
  have he2 : Real.exp (-0.108) < 1 := Real.exp_lt_one_iff.mpr (by norm_num)
  have hse : (5.47:ℝ) * 0.892 ≤ Real.sqrt 30 * Real.exp (-0.108) :=
    mul_le_mul hs1.le he1 (by norm_num) (Real.sqrt_nonneg 30)
  have hse2 : Real.sqrt 30 * Real.exp (-0.108) < 5.48 * 1 :=
    mul_lt_mul'' hs2 he2 (Real.sqrt_nonneg 30) (Real.exp_pos _).le
  have hpow : (30:ℝ) ^ (1.5:ℝ) = 30 * Real.sqrt 30 := rpow_three_halves 30 (by norm_num)
  unfold spread_component_value
  dsimp only
  rw [mul_one, hpow]
  have hraw_lo : (16.39:ℝ) < 0.560 * (30 * Real.sqrt 30 / 5.0 * Real.exp (-0.108)) := by
    nlinarith [hse]
  have hraw_hi : 0.560 * (30 * Real.sqrt 30 / 5.0 * Real.exp (-0.108)) < 18.42 := by
    nlinarith [hse2]
  rw [min_eq_left (by linarith), max_eq_right (by linarith)]
  exact ⟨hraw_lo, hraw_hi⟩

/-- C8: on the hot, dry, windy input (temperature 95 F, relative humidity 15,
wind speed 30 mph, no precipitation) with the default live fuel moisture 120,
the engine returns a burning index above 75 and a fire danger class in the
HIGH-to-EXTREME range. -/
theorem C8_hot_dry_windy :
    calculate_fire_danger ⟨95, 15, 30, 0, none⟩ 120 =
      some (fire_danger_result ⟨95, 15, 30, 0, none⟩ 120) ∧
    75 < (fire_danger_result ⟨95, 15, 30, 0, none⟩ 120).burning_index ∧
    ((fire_danger_result ⟨95, 15, 30, 0, none⟩ 120).fire_danger_class = "HIGH" ∨
     (fire_danger_result ⟨95, 15, 30, 0, none⟩ 120).fire_danger_class = "VERY HIGH" ∨
     (fire_danger_result ⟨95, 15, 30, 0, none⟩ 120).fire_danger_class = "EXTREME") := by
  have hbi : (90:ℝ) < (fire_danger_result ⟨95, 15, 30, 0, none⟩ 120).burning_index := by
    rw [fdr_bi]
    dsimp only
    rw [c8_dfm, c8_erc]
    unfold calculate_burning_index
    have hsc := c8_sc_bounds
    have hv_lo : (103:ℝ) < 10 * spread_component_value 30 1 * 63.3 / 100 := by
      nlinarith [hsc.1]
    have hv_hi : 10 * spread_component_value 30 1 * 63.3 / 100 < 999 := by
      nlinarith [hsc.2]
    rw [min_eq_left (by linarith), max_eq_right (by linarith)]
    linarith
  refine ⟨calculate_fire_danger_eq_some _ 120 (by show (0:ℝ) ≤ 30; norm_num), by linarith, ?_⟩
  rw [fdr_class]
  unfold determine_fire_danger_class
  rw [if_neg (by linarith), if_neg (by linarith), if_neg (by linarith), if_neg (by linarith)]
  exact Or.inr (Or.inr rfl)

theorem C10_burning_index_le_witness :
    (fire_danger_result ⟨70, 50, 5, 0, none⟩ 120).burning_index ≤ 960.3 :=
  C10_burning_index_le ⟨70, 50, 5, 0, none⟩ 120 _
    (calculate_fire_danger_eq_some _ 120 (by show (0:ℝ) ≤ 5; norm_num))

end NFDRS
